import Mathlib

set_option maxRecDepth 10000

/-!
Shallow embedding of the Johanniter CIRS incident-report server.

The repository consists of near-identical rewrites of one small Express
application.  The primary variant (`src/server.js`, first document) exposes
GET /healthz, GET /, GET /new, GET /report/:id and POST /submit over a single
SQLite table `reports`.  A second variant (`src/unnamed/part_000`) exposes the
submission endpoint as POST /api/report without any validation.  Both are
embedded below: `CIRS` models the primary variant, `CIRS.Api` the
/api/report variant.  The database is modelled as the list of rows in
insertion order together with the AUTOINCREMENT counter; request-ambient
values (the clock reading `new Date().toISOString()`, the Intl timezone, the
mail transport configuration and whether delivery succeeds) are passed in a
`Ctx` record.
-/

namespace CIRS

/-- A submitted request body (`req.body`).  `none` models an absent key,
`some ""` a key submitted with the empty value.  The form key "when" is held
in the field `whenField` (it is inserted into the column `when_ts`). -/
structure Body where
  category : Option String := none
  title : Option String := none
  location : Option String := none
  description : Option String := none
  whenField : Option String := none
  asset : Option String := none
  immediate : Option String := none
  contactName : Option String := none
  contactEmail : Option String := none
  deriving DecidableEq

/-- One row of the `reports` table created by `server.js`:
id INTEGER PRIMARY KEY AUTOINCREMENT, created_at/category/title/location/
description NOT NULL, the rest nullable (`Option`). -/
structure Row where
  id : Nat
  created_at : String
  category : String
  title : String
  location : String
  asset : Option String
  description : String
  immediate : Option String
  when_ts : String
  tz : String
  contact_name : Option String
  contact_email : Option String
  deriving DecidableEq

/-- The store: rows in insertion order plus the AUTOINCREMENT counter
(the next id to be assigned; SQLite AUTOINCREMENT never reuses ids). -/
structure DB where
  reports : List Row := []
  nextId : Nat := 1
  deriving DecidableEq

/-- Well-formedness of the store: the AUTOINCREMENT counter is strictly
above every id already assigned.  Holds for every state reachable from the
empty store. -/
def DB.WF (db : DB) : Prop := ∀ r ∈ db.reports, r.id < db.nextId

/-- Outcome of the fire-and-forget mail step in POST /submit: not reached
(validation failed before the insert), transport not configured, delivery
succeeded, or delivery failed and was only logged (`.catch(console.warn)`). -/
inductive MailOutcome where
  | skipped
  | notConfigured
  | sent
  | failedLogged
  deriving DecidableEq

/-- Request-ambient values: the clock reading `new Date().toISOString()`,
the timezone from `Intl.DateTimeFormat().resolvedOptions().timeZone`, and the
mail environment (SMTP_* present, MAIL_TO present, and whether the transport
delivers). -/
structure Ctx where
  nowIso : String
  tz : String := "UTC"
  mailerConfigured : Bool := false
  mailTo : Bool := false
  mailDelivers : Bool := true
  deriving DecidableEq

/-- One row of the list view: the projection
SELECT id, created_at, category, title, location, COALESCE(asset,'') AS asset. -/
structure Summary where
  id : Nat
  created_at : String
  category : String
  title : String
  location : String
  asset : String
  deriving DecidableEq

/-- The HTTP responses the handlers produce.  `json ok id` models
`res.status(200).json({...})`; the /api/report variant sends `{ok:true}`
with no id, hence the `Option Nat`. -/
inductive Response where
  | badRequest (msg : String)
  | redirect (location : String)
  | notFound (msg : String)
  | renderList (rows : List Summary) (ok : Bool)
  | renderDetail (row : Row)
  | renderForm
  | text (body : String)
  | json (ok : Bool) (id : Option Nat)
  deriving DecidableEq

/-- The HTTP status code of each response: `res.status(400)`,
`res.redirect` (302), `res.status(404)`; renders, sends and `res.json`
default to 200. -/
def Response.status : Response → Nat
  | .badRequest _ => 400
  | .redirect _ => 302
  | .notFound _ => 404
  | .renderList _ _ => 200
  | .renderDetail _ => 200
  | .renderForm => 200
  | .text _ => 200
  | .json _ _ => 200

/-- Drop leading whitespace characters. -/
def dropLeadingWs : List Char → List Char
  | [] => []
  | c :: cs => if c.isWhitespace then dropLeadingWs cs else c :: cs

/-- Drop leading and trailing whitespace characters. -/
def trimChars (cs : List Char) : List Char :=
  (dropLeadingWs ((dropLeadingWs cs).reverse)).reverse

/-- JavaScript `String.prototype.trim`: remove surrounding whitespace. -/
def jsTrim (s : String) : String := String.mk (trimChars s.data)

/-- The check `!req.body[f] || String(req.body[f]).trim() === ""`: the field
is absent, or empty, or whitespace-only (trim leaves the empty string). -/
def requiredMissing : Option String → Bool
  | none => true
  | some s => jsTrim s == ""

/-- The required fields in the order the handler iterates them:
`["category", "when", "location", "title", "description"]`. -/
def requiredFields : List (String × (Body → Option String)) :=
  [("category", Body.category), ("when", Body.whenField),
   ("location", Body.location), ("title", Body.title),
   ("description", Body.description)]

/-- The first required field failing the presence check, if any
(the handler returns 400 on the first failing field of the list). -/
def firstMissing (b : Body) : Option String :=
  (requiredFields.find? fun p => requiredMissing (p.2 b)).map Prod.fst

/-- JavaScript `v || null` on a body value: an absent key or the empty
string becomes SQL NULL; any other string (including whitespace-only ones)
is kept. -/
def orNull : Option String → Option String
  | none => none
  | some s => if s = "" then none else some s

/-- The list-view projection with COALESCE(asset,''). -/
def toSummary (r : Row) : Summary :=
  { id := r.id, created_at := r.created_at, category := r.category,
    title := r.title, location := r.location, asset := r.asset.getD "" }

/-- ORDER BY id DESC as a relation: a row comes before another when its id
is at least as large. -/
def idDescOrder (a b : Row) : Prop := b.id ≤ a.id

instance : DecidableRel idDescOrder := fun a b => Nat.decLe b.id a.id

instance : IsTotal Row idDescOrder := ⟨fun a b => Nat.le_total b.id a.id⟩

instance : IsTrans Row idDescOrder :=
  ⟨fun _ _ _ h1 h2 => Nat.le_trans h2 h1⟩

/-- The result set of `SELECT ... ORDER BY id DESC`. -/
def orderByIdDesc (rows : List Row) : List Row :=
  List.insertionSort idDescOrder rows

/-- GET /: query all reports ordered by id descending (no LIMIT clause in
the source), project each to a summary, and render the list view with the
`ok` query flag.  The store is not modified. -/
def listHandler (db : DB) (okQuery : Bool) : Response × DB :=
  (Response.renderList ((orderByIdDesc db.reports).map toSummary) okQuery,
   db)

/-- `SELECT * FROM reports WHERE id = ?` with `Number(req.params.id)`:
`none` models a parameter that is not a number (NaN matches no row);
otherwise the first row with that id. -/
def lookupReport (db : DB) (idNum : Option Nat) : Option Row :=
  match idNum with
  | none => none
  | some n => db.reports.find? fun r => r.id == n

/-- GET /report/:id: 404 "Not found" when the row is absent, otherwise the
read-only detail render.  The store is not modified. -/
def getReportHandler (db : DB) (idNum : Option Nat) : Response × DB :=
  match lookupReport db idNum with
  | none => (Response.notFound "Not found", db)
  | some r => (Response.renderDetail r, db)

/-- The mail block of POST /submit: attempted only when the transport is
configured and MAIL_TO is set; a delivery failure is caught and logged,
nothing else. -/
def mailStep (ctx : Ctx) : MailOutcome :=
  if ctx.mailerConfigured && ctx.mailTo then
    (if ctx.mailDelivers then MailOutcome.sent else MailOutcome.failedLogged)
  else MailOutcome.notConfigured

/-- The row the INSERT statement of POST /submit writes: created_at is the
captured `nowIso`, tz the ambient timezone, id the AUTOINCREMENT value;
required fields are passed through verbatim, optional fields through
`v || null`. -/
def insertedRow (ctx : Ctx) (b : Body) (db : DB) : Row :=
  { id := db.nextId
    created_at := ctx.nowIso
    category := b.category.getD ""
    title := b.title.getD ""
    location := b.location.getD ""
    asset := orNull b.asset
    description := b.description.getD ""
    immediate := orNull b.immediate
    when_ts := b.whenField.getD ""
    tz := ctx.tz
    contact_name := orNull b.contactName
    contact_email := orNull b.contactEmail }

/-- POST /submit: reject 400 `Feld fehlt: <f>` on the first missing required
field; otherwise insert exactly one row, run the fire-and-forget mail step,
and redirect to /?ok=1 unconditionally. -/
def submitHandler (ctx : Ctx) (b : Body) (db : DB) :
    Response × DB × MailOutcome :=
  match firstMissing b with
  | some f =>
      (Response.badRequest ("Feld fehlt: " ++ f), db, MailOutcome.skipped)
  | none =>
      let row := insertedRow ctx b db
      (Response.redirect "/?ok=1",
       { reports := db.reports ++ [row], nextId := db.nextId + 1 },
       mailStep ctx)

/-- Every route of `server.js` that touches (or could touch) the store. -/
inductive Op where
  | healthz
  | listing (okQuery : Bool)
  | newForm
  | detail (idNum : Option Nat)
  | submit (ctx : Ctx) (b : Body)

/-- One request against the server: dispatch to the route handlers. -/
def step (db : DB) : Op → Response × DB
  | .healthz => (Response.text "ok", db)
  | .listing okQuery => listHandler db okQuery
  | .newForm => (Response.renderForm, db)
  | .detail idNum => getReportHandler db idNum
  | .submit ctx b =>
      let out := submitHandler ctx b db
      (out.1, out.2.1)

/-- Shape check for the output of JavaScript `Date.prototype.toISOString`:
exactly "YYYY-MM-DDTHH:MM:SS.mmmZ" (24 characters). -/
def iso8601Shape : List Char → Bool
  | [y1, y2, y3, y4, dashA, mo1, mo2, dashB, d1, d2, tSep,
     h1, h2, colonA, mi1, mi2, colonB, s1, s2, dotSep, f1, f2, f3, zSep] =>
      y1.isDigit && y2.isDigit && y3.isDigit && y4.isDigit && dashA == '-' &&
      mo1.isDigit && mo2.isDigit && dashB == '-' &&
      d1.isDigit && d2.isDigit && tSep == 'T' &&
      h1.isDigit && h2.isDigit && colonA == ':' &&
      mi1.isDigit && mi2.isDigit && colonB == ':' &&
      s1.isDigit && s2.isDigit && dotSep == '.' &&
      f1.isDigit && f2.isDigit && f3.isDigit && zSep == 'Z'
  | _ => false

/-- A string is an ISO-8601 timestamp in the format produced by
`Date.prototype.toISOString`. -/
def isIso8601 (s : String) : Bool := iso8601Shape s.data

/-- Helper for `specSanitize`: collapse runs of whitespace to a single
space; the flag records whether the previous character was whitespace. -/
def collapseWsAux : Bool → List Char → List Char
  | _, [] => []
  | prevWs, c :: cs =>
      if c.isWhitespace then
        (if prevWs then collapseWsAux true cs
         else ' ' :: collapseWsAux true cs)
      else c :: collapseWsAux false cs

/-- Modelled from the spec's words, for comparison against the values the
code stores: "collapse internal runs of whitespace to a single space, trim
leading/trailing whitespace, and truncate to a field-specific maximum
length".  This transform appears nowhere in the source. -/
def specSanitize (maxLen : Nat) (s : String) : String :=
  String.mk ((trimChars (collapseWsAux false s.data)).take maxLen)

namespace Api

/-- One row of the `reports` table of the /api/report variant
(`src/unnamed/part_000`): every submitted column nullable, `created_at`
filled server-side by the column default CURRENT_TIMESTAMP. -/
structure Row where
  id : Nat
  category : Option String
  title : Option String
  location : Option String
  asset : Option String
  description : Option String
  immediate : Option String
  when_ts : Option String
  contact_name : Option String
  contact_email : Option String
  created_at : String
  deriving DecidableEq

/-- The store of the /api/report variant. -/
structure DB where
  reports : List Row := []
  nextId : Nat := 1
  deriving DecidableEq

/-- POST /api/report: no validation at all — the nine body values are
inserted directly (absent keys become SQL NULL), `created_at` comes from the
column default (the ambient clock `now`), and the response is
`res.status(200).json({ ok: true })`, carrying no id. -/
def reportHandler (now : String) (b : Body) (db : DB) : Response × DB :=
  let row : Row :=
    { id := db.nextId
      category := b.category
      title := b.title
      location := b.location
      asset := b.asset
      description := b.description
      immediate := b.immediate
      when_ts := b.whenField
      contact_name := b.contactName
      contact_email := b.contactEmail
      created_at := now }
  (Response.json true none,
   { reports := db.reports ++ [row], nextId := db.nextId + 1 })

end Api

/-- The rows carried by a list render, for stating facts about GET /. -/
def rowsOf : Response → List Summary
  | .renderList rows _ => rows
  | _ => []

/-- The row carried by a detail render, for stating facts about
GET /report/:id. -/
def detailRow : Response → Option Row
  | .renderDetail r => some r
  | _ => none

/-- The empty store, as created by the schema DDL on first run. -/
def db0 : DB := {}

/-- The empty store of the /api/report variant. -/
def apiDb0 : Api.DB := {}

/-- A quiet request context with no mail transport configured. -/
def ctx0 : Ctx := { nowIso := "2026-01-01T12:00:00.000Z" }

/-- A request context whose mail transport is configured but fails to
deliver. -/
def ctxMailFail : Ctx :=
  { nowIso := "2026-01-01T12:00:00.000Z", mailerConfigured := true,
    mailTo := true, mailDelivers := false }

/-- A submission carrying all five required fields. -/
def validBody : Body :=
  { category := some "Technik", title := some "Defektes Geraet",
    location := some "RTW 1", description := some "Beschreibung",
    whenField := some "2026-01-01 11:30" }

/-- A submission with no fields at all. -/
def emptyBody : Body := {}

/-- A submission missing only the required category field. -/
def noCategoryBody : Body :=
  { title := some "Defektes Geraet", location := some "RTW 1",
    description := some "Beschreibung",
    whenField := some "2026-01-01 11:30" }

/-- A valid submission whose optional asset field is submitted as the empty
string and whose contact name is also empty. -/
def emptyAssetBody : Body :=
  { category := some "Technik", title := some "Defektes Geraet",
    location := some "RTW 1", description := some "Beschreibung",
    whenField := some "2026-01-01 11:30", asset := some "",
    contactName := some "" }

/-- A valid submission whose description carries a run of two spaces and
surrounding whitespace, to compare against the spec's sanitization. -/
def rawWsBody : Body :=
  { category := some "Technik", title := some "Defektes Geraet",
    location := some "RTW 1", description := some " a  b ",
    whenField := some "2026-01-01 11:30" }

/-- A row with id n+1 and fixed payload, used to populate large stores. -/
def mkRow (n : Nat) : Row :=
  { id := n + 1, created_at := "2026-01-01T00:00:00.000Z",
    category := "c", title := "t", location := "l", asset := none,
    description := "d", immediate := none, when_ts := "w", tz := "UTC",
    contact_name := none, contact_email := none }

/-- A store holding 1000 reports with ids 1..1000. -/
def bigDB : DB :=
  { reports := (List.range 1000).map mkRow, nextId := 1001 }

end CIRS

namespace CIRS

/-- Helper: POST /submit on a body whose first missing required field is `f`
returns the 400 response and leaves the store and the mail step untouched. -/
theorem submit_invalid_eq (ctx : Ctx) (b : Body) (db : DB) (f : String)
    (h : firstMissing b = some f) :
    submitHandler ctx b db =
      (Response.badRequest ("Feld fehlt: " ++ f), db, MailOutcome.skipped) := by
  simp [submitHandler, h]

/-- Helper: POST /submit on a body passing validation appends exactly the
inserted row, bumps the id counter, runs the mail step and redirects. -/
theorem submit_valid_eq (ctx : Ctx) (b : Body) (db : DB)
    (h : firstMissing b = none) :
    submitHandler ctx b db =
      (Response.redirect "/?ok=1",
       { reports := db.reports ++ [insertedRow ctx b db],
         nextId := db.nextId + 1 },
       mailStep ctx) := by
  simp [submitHandler, h]

/-- Helper: in a well-formed store, looking up the id assigned by a valid
submission finds exactly the row that submission inserted. -/
theorem lookup_after_submit (ctx : Ctx) (b : Body) (db : DB)
    (hv : firstMissing b = none) (hwf : DB.WF db) :
    lookupReport (submitHandler ctx b db).2.1 (some db.nextId)
      = some (insertedRow ctx b db) := by
  rw [submit_valid_eq ctx b db hv]
  have hnone : db.reports.find? (fun r => r.id == db.nextId) = none := by
    rw [List.find?_eq_none]
    intro x hx
    simp only [beq_iff_eq]
    exact Nat.ne_of_lt (hwf x hx)
  simp [lookupReport, List.find?_append, hnone, insertedRow]

/-- Helper: GET /report/:id for the id a valid submission just assigned
renders that row read-only and leaves the store unchanged. -/
theorem getReport_after_submit (ctx : Ctx) (b : Body) (db : DB)
    (hv : firstMissing b = none) (hwf : DB.WF db) :
    getReportHandler (submitHandler ctx b db).2.1 (some db.nextId)
      = (Response.renderDetail (insertedRow ctx b db),
         (submitHandler ctx b db).2.1) := by
  simp [getReportHandler, lookup_after_submit ctx b db hv hwf]

/-- Helper: JavaScript `v || null` maps the empty string and an absent key
to SQL NULL. -/
theorem orNull_eq_none (v : Option String) (h : v = some "" ∨ v = none) :
    orNull v = none := by
  rcases h with h | h <;> rw [h] <;> simp [orNull]

/-- C1 counterexample: the POST /api/report handler of the
`src/unnamed/part_000` variant performs no validation.  A submission whose
required category field is absent is nonetheless inserted (row count grows
from 0 to 1) and answered with HTTP 200 `{ok:true}`, not 400. -/
theorem C1_counterexample :
    noCategoryBody.category = none ∧
    apiDb0.reports.length = 0 ∧
    (Api.reportHandler "2026-01-01 12:00:00" noCategoryBody apiDb0).1
        = Response.json true none ∧
    ((Api.reportHandler "2026-01-01 12:00:00" noCategoryBody apiDb0).1).status
        = 200 ∧
    (Api.reportHandler "2026-01-01 12:00:00" noCategoryBody apiDb0).2.reports.length
        = 1 := by
  decide

/-- C1 (amended): for the POST /submit handler, every submission whose
first missing required field (absent or empty after trim) is `f` is
answered 400 `Feld fehlt: f`, and the store — in particular its row
count — is unchanged. -/
theorem C1_submit_rejects_missing (ctx : Ctx) (b : Body) (db : DB)
    (f : String) (h : firstMissing b = some f) :
    (submitHandler ctx b db).1 = Response.badRequest ("Feld fehlt: " ++ f) ∧
    ((submitHandler ctx b db).1).status = 400 ∧
    (submitHandler ctx b db).2.1 = db ∧
    (submitHandler ctx b db).2.1.reports.length = db.reports.length := by
  rw [submit_invalid_eq ctx b db f h]
  exact ⟨rfl, rfl, rfl, rfl⟩

/-- C1 witness: the empty submission fails on the category field. -/
theorem C1_submit_rejects_missing_witness :
    (submitHandler ctx0 emptyBody db0).1
        = Response.badRequest ("Feld fehlt: " ++ "category") ∧
    ((submitHandler ctx0 emptyBody db0).1).status = 400 ∧
    (submitHandler ctx0 emptyBody db0).2.1 = db0 ∧
    (submitHandler ctx0 emptyBody db0).2.1.reports.length
        = db0.reports.length :=
  C1_submit_rejects_missing ctx0 emptyBody db0 "category" (by decide)

/-- C2 counterexample: with a configured but failing mail transport, a
valid submission is answered with the 302 redirect to /?ok=1 — not with
502 — the failure being only logged. -/
theorem C2_counterexample :
    (submitHandler ctxMailFail validBody db0).2.2
        = MailOutcome.failedLogged ∧
    (submitHandler ctxMailFail validBody db0).1
        = Response.redirect "/?ok=1" ∧
    ((submitHandler ctxMailFail validBody db0).1).status = 302 ∧
    ((submitHandler ctxMailFail validBody db0).1).status ≠ 502 := by
  decide

/-- C2 (amended): when outbound delivery fails after the row has been
persisted, the handler still responds with the success redirect to /?ok=1
(HTTP 302), the failure is only logged, and the persisted row is never
rolled back: it remains retrievable via GET /report/:id. -/
theorem C2_mail_failure_nonfatal (ctx : Ctx) (b : Body) (db : DB)
    (hv : firstMissing b = none) (hwf : DB.WF db)
    (hm : ctx.mailerConfigured = true) (ht : ctx.mailTo = true)
    (hd : ctx.mailDelivers = false) :
    (submitHandler ctx b db).2.2 = MailOutcome.failedLogged ∧
    (submitHandler ctx b db).1 = Response.redirect "/?ok=1" ∧
    ((submitHandler ctx b db).1).status = 302 ∧
    (submitHandler ctx b db).2.1.reports
        = db.reports ++ [insertedRow ctx b db] ∧
    getReportHandler (submitHandler ctx b db).2.1 (some db.nextId)
      = (Response.renderDetail (insertedRow ctx b db),
         (submitHandler ctx b db).2.1) := by
  refine ⟨?_, ?_, ?_, ?_, getReport_after_submit ctx b db hv hwf⟩ <;>
    rw [submit_valid_eq ctx b db hv] <;>
    simp [mailStep, hm, ht, hd, Response.status]

/-- C2 witness: a concrete valid submission under a failing transport. -/
theorem C2_mail_failure_nonfatal_witness :
    (submitHandler ctxMailFail validBody db0).2.2
        = MailOutcome.failedLogged ∧
    (submitHandler ctxMailFail validBody db0).1
        = Response.redirect "/?ok=1" ∧
    ((submitHandler ctxMailFail validBody db0).1).status = 302 ∧
    (submitHandler ctxMailFail validBody db0).2.1.reports
        = db0.reports ++ [insertedRow ctxMailFail validBody db0] ∧
    getReportHandler (submitHandler ctxMailFail validBody db0).2.1 (some db0.nextId)
      = (Response.renderDetail (insertedRow ctxMailFail validBody db0),
         (submitHandler ctxMailFail validBody db0).2.1) :=
  C2_mail_failure_nonfatal ctxMailFail validBody db0
    (by decide) (by simp [DB.WF, db0]) rfl rfl rfl

/-- C3 counterexample: a description submitted as " a  b " (surrounding
whitespace, an internal run of two spaces) is stored verbatim, while the
spec's sanitization would store "a b"; the two differ. -/
theorem C3_counterexample :
    (submitHandler ctx0 rawWsBody db0).2.1.reports.map Row.description
        = [" a  b "] ∧
    specSanitize 5000 " a  b " = "a b" ∧
    (" a  b " : String) ≠ "a b" := by
  decide

/-- C3 (amended): no sanitization is applied at write time.  Every stored
free-text value is exactly the submitted value: required fields verbatim,
optional fields through the `v || null` coercion only; created_at and tz
come from the request context. -/
theorem C3_stored_verbatim (ctx : Ctx) (b : Body) (db : DB)
    (hv : firstMissing b = none) : ∃ r,
    (submitHandler ctx b db).2.1.reports = db.reports ++ [r] ∧
    r.category = b.category.getD "" ∧
    r.title = b.title.getD "" ∧
    r.location = b.location.getD "" ∧
    r.description = b.description.getD "" ∧
    r.when_ts = b.whenField.getD "" ∧
    r.asset = orNull b.asset ∧
    r.immediate = orNull b.immediate ∧
    r.contact_name = orNull b.contactName ∧
    r.contact_email = orNull b.contactEmail ∧
    r.created_at = ctx.nowIso ∧ r.tz = ctx.tz := by
  refine ⟨insertedRow ctx b db, ?_,
    rfl, rfl, rfl, rfl, rfl, rfl, rfl, rfl, rfl, rfl, rfl⟩
  rw [submit_valid_eq ctx b db hv]

/-- C3 witness: the raw-whitespace submission is stored unmodified. -/
theorem C3_stored_verbatim_witness : ∃ r,
    (submitHandler ctx0 rawWsBody db0).2.1.reports = db0.reports ++ [r] ∧
    r.category = rawWsBody.category.getD "" ∧
    r.title = rawWsBody.title.getD "" ∧
    r.location = rawWsBody.location.getD "" ∧
    r.description = rawWsBody.description.getD "" ∧
    r.when_ts = rawWsBody.whenField.getD "" ∧
    r.asset = orNull rawWsBody.asset ∧
    r.immediate = orNull rawWsBody.immediate ∧
    r.contact_name = orNull rawWsBody.contactName ∧
    r.contact_email = orNull rawWsBody.contactEmail ∧
    r.created_at = ctx0.nowIso ∧ r.tz = ctx0.tz :=
  C3_stored_verbatim ctx0 rawWsBody db0 (by decide)

/-- C4 counterexample: the list query has no LIMIT clause.  With 1000
stored reports, GET / returns all 1000 summaries, exceeding any cap of
approximately 500 rows. -/
theorem C4_counterexample :
    500 < (rowsOf (listHandler bigDB false).1).length := by
  have h1 : (rowsOf (listHandler bigDB false).1).length
      = bigDB.reports.length := by
    show ((orderByIdDesc bigDB.reports).map toSummary).length = _
    rw [List.length_map]
    exact (List.perm_insertionSort idDescOrder bigDB.reports).length_eq
  rw [h1]
  show 500 < ((List.range 1000).map mkRow).length
  rw [List.length_map, List.length_range]
  decide

/-- C4 (amended): GET / returns the summaries of ALL reports (no row cap),
ordered by id descending, each summary carrying id, created_at, category,
title, location and the NULL-coalesced asset; the store is unchanged. -/
theorem C4_list_all_ordered (db : DB) (okQuery : Bool) : ∃ out,
    (listHandler db okQuery).1 = Response.renderList out okQuery ∧
    List.Pairwise (fun a b : Summary => b.id ≤ a.id) out ∧
    out.Perm (db.reports.map toSummary) ∧
    (listHandler db okQuery).2 = db := by
  refine ⟨(orderByIdDesc db.reports).map toSummary, rfl, ?_, ?_, rfl⟩
  · exact List.Pairwise.map toSummary (fun a b h => h)
      (List.sorted_insertionSort idDescOrder db.reports)
  · exact (List.perm_insertionSort idDescOrder db.reports).map toSummary

/-- C5: a valid submission creates exactly one row, whose id is strictly
above every previously assigned id (AUTOINCREMENT), and whose created_at is
the ISO-8601 clock reading captured during the request, hence between the
request's start and end timestamps. -/
theorem C5_submit_one_row (ctx : Ctx) (b : Body) (db : DB)
    (startIso endIso : String)
    (hv : firstMissing b = none) (hwf : DB.WF db)
    (hiso : isIso8601 ctx.nowIso = true)
    (hs : startIso ≤ ctx.nowIso) (he : ctx.nowIso ≤ endIso) : ∃ r,
    (submitHandler ctx b db).2.1.reports = db.reports ++ [r] ∧
    r.id = db.nextId ∧
    (∀ p ∈ db.reports, p.id < r.id) ∧
    isIso8601 r.created_at = true ∧
    startIso ≤ r.created_at ∧ r.created_at ≤ endIso := by
  refine ⟨insertedRow ctx b db, ?_, rfl, hwf, hiso, hs, he⟩
  rw [submit_valid_eq ctx b db hv]

/-- C5 witness: a concrete valid submission into the empty store. -/
theorem C5_submit_one_row_witness : ∃ r,
    (submitHandler ctx0 validBody db0).2.1.reports = db0.reports ++ [r] ∧
    r.id = db0.nextId ∧
    (∀ p ∈ db0.reports, p.id < r.id) ∧
    isIso8601 r.created_at = true ∧
    ctx0.nowIso ≤ r.created_at ∧ r.created_at ≤ ctx0.nowIso :=
  C5_submit_one_row ctx0 validBody db0 ctx0.nowIso ctx0.nowIso
    (by decide) (by simp [DB.WF, db0]) (by decide) (le_refl _) (le_refl _)

/-- C6 counterexample: the JSON acknowledgment of POST /api/report carries
no id even though the insert assigned id 1 — it is `{ok:true}`, not
`{ok:true,id}` — and the two endpoints, not content negotiation, decide
the response shape. -/
theorem C6_counterexample :
    (Api.reportHandler "2026-01-01 12:00:00" validBody apiDb0).1
        = Response.json true none ∧
    ((Api.reportHandler "2026-01-01 12:00:00" validBody apiDb0).2.reports.map
        Api.Row.id) = [1] ∧
    Response.json true none ≠ Response.json true (some 1) := by
  decide

/-- C6 (amended): the response shape is fixed per endpoint: POST /submit
always redirects to /?ok=1 on success, and POST /api/report always answers
JSON `{ok:true}` without the assigned id; no content negotiation occurs. -/
theorem C6_response_by_endpoint :
    (∀ (ctx : Ctx) (b : Body) (db : DB), firstMissing b = none →
        (submitHandler ctx b db).1 = Response.redirect "/?ok=1") ∧
    (∀ (now : String) (b : Body) (adb : Api.DB),
        (Api.reportHandler now b adb).1 = Response.json true none) := by
  constructor
  · intro ctx b db hv
    rw [submit_valid_eq ctx b db hv]
  · intro now b adb
    rfl

/-- C6 witness: concrete submissions against both endpoints. -/
theorem C6_response_by_endpoint_witness :
    (submitHandler ctx0 validBody db0).1 = Response.redirect "/?ok=1" ∧
    (Api.reportHandler "2026-01-01 12:00:00" validBody apiDb0).1
        = Response.json true none :=
  ⟨C6_response_by_endpoint.1 ctx0 validBody db0 (by decide),
   C6_response_by_endpoint.2 "2026-01-01 12:00:00" validBody apiDb0⟩

/-- C7: GET /report/:id for an id matching no stored row answers 404
"Not found" and leaves the store untouched; absence is an ordinary branch
of the handler, not a thrown error. -/
theorem C7_get_missing_404 (db : DB) (idNum : Option Nat)
    (h : lookupReport db idNum = none) :
    getReportHandler db idNum = (Response.notFound "Not found", db) ∧
    ((getReportHandler db idNum).1).status = 404 := by
  simp [getReportHandler, h, Response.status]

/-- C7 witness: id 1 in the empty store. -/
theorem C7_get_missing_404_witness :
    getReportHandler db0 (some 1) = (Response.notFound "Not found", db0) ∧
    ((getReportHandler db0 (some 1)).1).status = 404 :=
  C7_get_missing_404 db0 (some 1) (by decide)

/-- C8 counterexample: an asset submitted as the empty string comes back
NULL from GET /report/:id, not as the empty string; the spec's
sanitization maps "" to "", so the write-time empty-to-NULL coercion, not
sanitization, breaks the claimed identity. -/
theorem C8_counterexample :
    emptyAssetBody.asset = some "" ∧
    (detailRow (getReportHandler
        (submitHandler ctx0 emptyAssetBody db0).2.1 (some 1)).1).map Row.asset
      = some none ∧
    specSanitize 300 "" = "" ∧
    some (none : Option String) ≠ some (some "") := by
  decide

/-- C8 (amended): create followed by get round-trips exactly the values the
write stored: required fields verbatim as submitted, optional fields
through the empty-to-NULL coercion. -/
theorem C8_roundtrip (ctx : Ctx) (b : Body) (db : DB)
    (hv : firstMissing b = none) (hwf : DB.WF db) : ∃ r,
    getReportHandler (submitHandler ctx b db).2.1 (some db.nextId)
      = (Response.renderDetail r, (submitHandler ctx b db).2.1) ∧
    r.category = b.category.getD "" ∧
    r.title = b.title.getD "" ∧
    r.location = b.location.getD "" ∧
    r.description = b.description.getD "" ∧
    r.when_ts = b.whenField.getD "" ∧
    r.asset = orNull b.asset ∧
    r.immediate = orNull b.immediate ∧
    r.contact_name = orNull b.contactName ∧
    r.contact_email = orNull b.contactEmail :=
  ⟨insertedRow ctx b db, getReport_after_submit ctx b db hv hwf,
   rfl, rfl, rfl, rfl, rfl, rfl, rfl, rfl, rfl⟩

/-- C8 witness: round trip of a concrete valid submission. -/
theorem C8_roundtrip_witness : ∃ r,
    getReportHandler (submitHandler ctx0 validBody db0).2.1 (some db0.nextId)
      = (Response.renderDetail r, (submitHandler ctx0 validBody db0).2.1) ∧
    r.category = validBody.category.getD "" ∧
    r.title = validBody.title.getD "" ∧
    r.location = validBody.location.getD "" ∧
    r.description = validBody.description.getD "" ∧
    r.when_ts = validBody.whenField.getD "" ∧
    r.asset = orNull validBody.asset ∧
    r.immediate = orNull validBody.immediate ∧
    r.contact_name = orNull validBody.contactName ∧
    r.contact_email = orNull validBody.contactEmail :=
  C8_roundtrip ctx0 validBody db0 (by decide) (by simp [DB.WF, db0])

/-- C9: the store is append-only.  Every exposed operation changes the row
list by appending at most one row — so existing rows, including their id
and created_at, are never mutated or deleted — and every read operation
(GET /, GET /report/:id, GET /new, GET /healthz) leaves the whole store
state unchanged. -/
theorem C9_store_append_only :
    (∀ (db : DB) (op : Op), ∃ t,
        (step db op).2.reports = db.reports ++ t ∧ t.length ≤ 1) ∧
    (∀ (db : DB) (okQuery : Bool), (step db (Op.listing okQuery)).2 = db) ∧
    (∀ (db : DB) (idNum : Option Nat), (step db (Op.detail idNum)).2 = db) ∧
    (∀ db : DB, (step db Op.healthz).2 = db) ∧
    (∀ db : DB, (step db Op.newForm).2 = db) := by
  refine ⟨?_, fun db okQuery => rfl, ?_, fun db => rfl, fun db => rfl⟩
  · intro db op
    cases op with
    | healthz => exact ⟨[], by simp [step]⟩
    | listing okQuery => exact ⟨[], by simp [step, listHandler]⟩
    | newForm => exact ⟨[], by simp [step]⟩
    | detail idNum =>
        refine ⟨[], ?_, by simp⟩
        cases h : lookupReport db idNum <;>
          simp [step, getReportHandler, h]
    | submit ctx b =>
        cases h : firstMissing b with
        | some f => exact ⟨[], by simp [step, submit_invalid_eq ctx b db f h]⟩
        | none => exact ⟨[insertedRow ctx b db],
            by simp [step, submit_valid_eq ctx b db h]⟩
  · intro db idNum
    cases h : lookupReport db idNum <;> simp [step, getReportHandler, h]

/-- C10: optional fields submitted as the empty string or omitted are
stored as SQL NULL; GET /report/:id returns them as NULL, and only the
list view coalesces asset back to the empty string. -/
theorem C10_empty_optionals_null (ctx : Ctx) (b : Body) (db : DB)
    (hv : firstMissing b = none) (hwf : DB.WF db)
    (ha : b.asset = some "" ∨ b.asset = none)
    (hi : b.immediate = some "" ∨ b.immediate = none)
    (hn : b.contactName = some "" ∨ b.contactName = none)
    (he : b.contactEmail = some "" ∨ b.contactEmail = none) : ∃ r,
    (submitHandler ctx b db).2.1.reports = db.reports ++ [r] ∧
    r.asset = none ∧ r.immediate = none ∧
    r.contact_name = none ∧ r.contact_email = none ∧
    detailRow (getReportHandler
        (submitHandler ctx b db).2.1 (some db.nextId)).1 = some r ∧
    (toSummary r).asset = "" := by
  refine ⟨insertedRow ctx b db, ?_, orNull_eq_none _ ha, orNull_eq_none _ hi,
    orNull_eq_none _ hn, orNull_eq_none _ he, ?_, ?_⟩
  · rw [submit_valid_eq ctx b db hv]
  · rw [getReport_after_submit ctx b db hv hwf]
    rfl
  · simp [toSummary, insertedRow, orNull_eq_none _ ha]

/-- C10 witness: a valid submission with empty asset and contact name and
omitted immediate and contact email. -/
theorem C10_empty_optionals_null_witness : ∃ r,
    (submitHandler ctx0 emptyAssetBody db0).2.1.reports = db0.reports ++ [r] ∧
    r.asset = none ∧ r.immediate = none ∧
    r.contact_name = none ∧ r.contact_email = none ∧
    detailRow (getReportHandler
        (submitHandler ctx0 emptyAssetBody db0).2.1 (some db0.nextId)).1 = some r ∧
    (toSummary r).asset = "" :=
  C10_empty_optionals_null ctx0 emptyAssetBody db0
    (by decide) (by simp [DB.WF, db0])
    (by decide) (by decide) (by decide) (by decide)

end CIRS
